import Mathlib

/-!
Shallow embedding of `src/th2c/connection.py` (class `HTTP2ClientConnection`).

The transport (tornado IOStream), the timer (IOLoop timeouts) and the HTTP/2
protocol engine (the `h2` package) are external collaborators; they are
modelled by their visible interface:
  * the transport is a record carrying its current `error`, a `closed` flag
    and the close-callback registration (the reason value it was bound to);
  * the timer handle is a three-valued type, because the code stores `None`,
    a handle object, or literally `False` in `self._connect_timeout_t` and
    only tests it for Python truthiness;
  * `h2conn.receive_data` is abstracted as a decode result (a list of events
    or a decode exception), and the flow-control / flush commands sent to the
    engine are recorded as an observable command trace.
Calls of the user callbacks `on_connection_closed` and `on_connection_ready`
are likewise recorded as traces, so properties about "the callback fires
exactly once" become statements about list lengths.
-/

namespace Th2c

/-- Closure reasons / error values handed to `on_close` and, through it, to the
`on_connection_closed` user callback.  `noErr` models Python `None` (the value
of `io_stream.error` on a healthy stream). -/
inductive Reason where
  | noErr
  | httpError (code : Nat)
  | transportError (e : Nat)
deriving DecidableEq, Repr

/-- Model of a tornado IOStream as seen by the connection: its current `error`
attribute, whether it has been closed, whether `set_nodelay` was applied, and
the reason value that `set_close_callback` captured (the code registers
`functools.partial(self.on_close, io_stream.error)`, which evaluates
`io_stream.error` at registration time). -/
structure IOStream where
  error : Reason
  closed : Bool
  nodelay : Bool
  close_callback : Option Reason
deriving DecidableEq, Repr

/-- The value stored in `self._connect_timeout_t`: Python `None`, a timeout
handle, or literally `False` (assigned in `on_timeout`). -/
inductive TimeoutT where
  | tNone
  | tHandle (t : Nat)
  | tFalse
deriving DecidableEq, Repr

/-- Python truthiness of `self._connect_timeout_t`: only a real handle is
truthy; both `None` and `False` are falsy. -/
def TimeoutT.truthy : TimeoutT → Bool
  | .tHandle _ => true
  | _ => false

/-- Decoded protocol events, as discriminated by `process_events`:
`RemoteSettingsChanged`, `ConnectionTerminated`, `DataReceived` (with its
`stream_id` and `flow_controlled_length`), any other event that carries a
`stream_id` attribute, and any other connection-scoped event. -/
inductive H2Event where
  | remoteSettingsChanged
  | connectionTerminated
  | dataReceived (sid : Nat) (flen : Nat)
  | streamEvent (sid : Nat)
  | connEvent
deriving DecidableEq, Repr

/-- The value of `getattr(event, 'stream_id', None)`: `RemoteSettingsChanged`
and `ConnectionTerminated` carry no `stream_id` attribute. -/
def H2Event.streamId? : H2Event → Option Nat
  | .remoteSettingsChanged => none
  | .connectionTerminated => none
  | .dataReceived sid _ => some sid
  | .streamEvent sid => some sid
  | .connEvent => none

/-- Commands issued to the protocol engine / transport that are observable to
the peer: per-stream and connection-scope flow-control window increments, and
a flush of the engine's pending outbound bytes. -/
inductive FlowCmd where
  | streamIncr (sid : Nat) (amount : Nat)
  | connIncr (amount : Nat)
  | flushData
deriving DecidableEq, Repr

/-- State of an `HTTP2ClientConnection` object together with the observable
traces of its side effects.  `ongoing_streams` and `event_handlers` are the
two dictionaries of the class (association lists keyed by stream id,
respectively by the event key used for observer registration; handlers are
identified by numbers).  The trace fields record, in order: the arguments of
every `on_connection_closed` call, the number of `on_connection_ready`
callbacks scheduled, the number of `tcp_client.connect` attempts started, the
flow-control / flush commands issued, the (stream id, event) pairs handed to
`stream.handle_event`, and the (handler, event) pairs handed to registered
observers. -/
structure ConnState where
  connect_timeout : Nat
  is_connected : Bool
  timed_out : Bool
  stream : Option IOStream
  connect_timeout_t : TimeoutT
  h2conn : Bool
  ongoing_streams : List (Nat × Nat)
  event_handlers : List (H2Event × List Nat)
  closed_calls : List Reason
  ready_calls : Nat
  connect_attempts : Nat
  flow_cmds : List FlowCmd
  delivered : List (Nat × H2Event)
  handler_calls : List (Nat × H2Event)
deriving DecidableEq, Repr

/-- Python `KeyError`, raised by `dict` deletion and `set.remove`. -/
inductive PyError where
  | keyError
deriving DecidableEq, Repr

/-- Constructor `__init__`: a fresh connection with empty registries and
empty traces. -/
def ConnState.init (connect_timeout : Nat) : ConnState :=
  { connect_timeout := connect_timeout
    is_connected := false
    timed_out := false
    stream := none
    connect_timeout_t := .tNone
    h2conn := false
    ongoing_streams := []
    event_handlers := []
    closed_calls := []
    ready_calls := 0
    connect_attempts := 0
    flow_cmds := []
    delivered := []
    handler_calls := [] }

/-- Method `flush`: ask the engine for `data_to_send()` and write it to the
stream; modelled as issuing one flush command. -/
def flush (st : ConnState) : ConnState :=
  { st with flow_cmds := st.flow_cmds ++ [FlowCmd.flushData] }

/-- Method `on_close(reason)`: mark disconnected, drop the engine, close and drop the
stream (secondary close errors are swallowed), then call
`self.on_connection_closed(reason)` — recorded by appending `reason` to the
trace.  Note there is no guard: every invocation reaches the callback. -/
def on_close (st : ConnState) (reason : Reason) : ConnState :=
  { st with
    is_connected := false
    h2conn := false
    stream := none
    closed_calls := st.closed_calls ++ [reason] }

/-- Method `connect()`: a no-op (with a log line) whenever `self._connect_timeout_t`
is truthy; otherwise reset `timed_out`, arm a fresh connect timeout and start
a `tcp_client.connect` attempt (counted in `connect_attempts`). -/
def connect (st : ConnState) : ConnState :=
  if st.connect_timeout_t.truthy then st
  else
    { st with
      timed_out := false
      connect_timeout_t := .tHandle st.connect_attempts
      connect_attempts := st.connect_attempts + 1 }

/-- Method `on_connect(io_stream)`: if we already timed out, close the fresh stream
and return without recording it.  Otherwise: mark connected, cancel the
timeout, record the stream, enable nodelay, register
`functools.partial(self.on_close, io_stream.error)` as close callback
(capturing the error value now), construct and initiate the h2 engine,
arm the read loop, flush the handshake bytes and schedule the
`on_connection_ready` callback.  Returns the updated connection state and the
(possibly closed) io stream. -/
def on_connect (st : ConnState) (ios : IOStream) : ConnState × IOStream :=
  if st.timed_out then
    (st, { ios with closed := true })
  else
    let ios' : IOStream :=
      { ios with nodelay := true, close_callback := some ios.error }
    ({ st with
        is_connected := true
        connect_timeout_t := .tNone
        stream := some ios'
        h2conn := true
        flow_cmds := st.flow_cmds ++ [FlowCmd.flushData]
        ready_calls := st.ready_calls + 1 },
      ios')

/-- Method `on_timeout`: mark `timed_out`, store `False` in the timeout slot, and run
the closure path with `HTTPError(599)` as reason. -/
def on_timeout (st : ConnState) : ConnState :=
  on_close { st with timed_out := true, connect_timeout_t := .tFalse }
    (Reason.httpError 599)

/-- Method `on_error(phase, typ, val, tb)`: log and run the closure path with the
live error value. -/
def on_error (st : ConnState) (val : Reason) : ConnState :=
  on_close st val

/-- Environment step: the transport fails or closes with `live_error` after
the connection was established.  Tornado updates `stream.error` to the live
error and then fires the registered close callback; since the code bound the
callback to the reason captured at registration time, `on_close` receives the
captured value, not `live_error`. -/
def transport_closed (st : ConnState) (live_error : Reason) : ConnState :=
  match st.stream with
  | some ios =>
    let stErr := { st with stream := some { ios with error := live_error } }
    match ios.close_callback with
    | some captured => on_close stErr captured
    | none => stErr
  | none => st

/-- Association-list lookup for the two dictionaries of the class. -/
def lookupAssoc {α β : Type} [DecidableEq α] : List (α × β) → α → Option β
  | [], _ => none
  | kv :: rest, k => if kv.1 = k then some kv.2 else lookupAssoc rest k

/-- Loop-carried locals of `process_events`: the `recv_streams` dictionary and
the `settings_updated` / `connection_terminated` flags. -/
structure PELoop where
  recv_streams : List (Nat × Nat)
  settings_updated : Bool
  connection_terminated : Bool
deriving DecidableEq, Repr

/-- Assignment `recv_streams[stream_id] = recv_streams.get(stream_id, 0) + n`:
accumulate `n` under key `sid`, inserting the key on first use. -/
def bumpRecv : List (Nat × Nat) → Nat → Nat → List (Nat × Nat)
  | [], sid, n => [(sid, n)]
  | kv :: rest, sid, n =>
    if kv.1 = sid then (kv.1, kv.2 + n) :: rest
    else kv :: bumpRecv rest sid n

/-- One iteration of the `for event in events` loop of `process_events`:
update the loop locals per event class, dispatch the event to its registered
stream handler when `stream_id` is truthy and registered (the two warning
branches change no state), then fan out to observers whose key matches the
event. -/
def processOne (st : ConnState) (acc : PELoop) (ev : H2Event) :
    ConnState × PELoop :=
  let sid? := ev.streamId?
  let acc :=
    match ev with
    | .remoteSettingsChanged => { acc with settings_updated := true }
    | .connectionTerminated => { acc with connection_terminated := true }
    | .dataReceived sid n => { acc with recv_streams := bumpRecv acc.recv_streams sid n }
    | _ => acc
  let st :=
    match sid? with
    | some sid =>
      if sid ≠ 0 ∧ sid ∈ st.ongoing_streams.map Prod.fst then
        { st with delivered := st.delivered ++ [(sid, ev)] }
      else st
    | none => st
  match lookupAssoc st.event_handlers ev with
  | some hs =>
    ({ st with handler_calls := st.handler_calls ++ hs.map (fun h => (h, ev)) }, acc)
  | none => (st, acc)

/-- The event loop of `process_events`, threaded over the whole batch. -/
def eventsLoop (st : ConnState) (acc : PELoop) : List H2Event → ConnState × PELoop
  | [] => (st, acc)
  | ev :: rest =>
    let p := processOne st acc ev
    eventsLoop p.1 p.2 rest

/-- The `for stream_id, num_bytes in recv_streams.iteritems()` loop: skip
zero counts, otherwise issue a per-stream window increment and add the count
to the running `recv_connection` total. -/
def flowLoop (st : ConnState) (rc : Nat) : List (Nat × Nat) → ConnState × Nat
  | [] => (st, rc)
  | kv :: rest =>
    if kv.2 = 0 then flowLoop st rc rest
    else
      flowLoop
        { st with flow_cmds := st.flow_cmds ++ [FlowCmd.streamIncr kv.1 kv.2] }
        (rc + kv.2) rest

/-- The tail of `process_events` after the event loop: the per-stream
increment loop, the connection-scope increment when the total is nonzero, and
the flush when the total is nonzero or a settings update arrived.  The
`connection_terminated` flag of the loop state is never consulted. -/
def flowPhase (st : ConnState) (acc : PELoop) : ConnState :=
  let p := flowLoop st 0 acc.recv_streams
  let st1 := p.1
  let rc := p.2
  let st2 :=
    if rc ≠ 0 then { st1 with flow_cmds := st1.flow_cmds ++ [FlowCmd.connIncr rc] }
    else st1
  if rc ≠ 0 ∨ acc.settings_updated = true then flush st2 else st2

/-- Method `process_events(events)`: run the event loop with fresh locals,
then the flow-control batch phase. -/
def process_events (st : ConnState) (events : List H2Event) : ConnState :=
  let p := eventsLoop st ⟨[], false, false⟩ events
  flowPhase p.1 p.2

/-- Result of `self.h2conn.receive_data(data)`: either a list of decoded
events or a decode exception. -/
inductive DecodeResult where
  | ok (events : List H2Event)
  | decodeError
deriving DecidableEq, Repr

/-- Method `data_received(data)`: feed the bytes to the engine; on success dispatch
the events when the list is non-empty; on any exception just log
("Could not process events received on the HTTP/2 connection") and return. -/
def data_received (st : ConnState) (r : DecodeResult) : ConnState :=
  match r with
  | .ok evs => if evs ≠ [] then process_events st evs else st
  | .decodeError => st

/-- Method `end_stream(stream)`: `del self._ongoing_streams[stream.stream_id]`
— a `KeyError` when the id is absent, otherwise remove the entry. -/
def end_stream (st : ConnState) (sid : Nat) : Except PyError ConnState :=
  if sid ∈ st.ongoing_streams.map Prod.fst then
    Except.ok
      { st with ongoing_streams := st.ongoing_streams.filter (fun kv => kv.1 ≠ sid) }
  else Except.error PyError.keyError

/-- Python set `add`, on the list representation of a set. -/
def setAdd (s : List Nat) (h : Nat) : List Nat :=
  if h ∈ s then s else s ++ [h]

/-- Method `add_event_handler(event, handler)`:
`self.event_handlers.get(event, set()).add(handler)`.  When the key is
present, the stored set is mutated in place; when it is absent, `dict.get`
returns a fresh temporary set which is mutated and immediately discarded, so
the dictionary is unchanged. -/
def add_event_handler (st : ConnState) (ev : H2Event) (h : Nat) : ConnState :=
  { st with
    event_handlers :=
      st.event_handlers.map fun kv =>
        if kv.1 = ev then (kv.1, setAdd kv.2 h) else kv }

/-- Method `remove_event_handler(event, handler)`:
`self.event_handlers.get(event, set()).remove(handler)`.  The call
`set.remove` raises `KeyError` when the element is absent — in particular
always when the key is missing from the dictionary, because the fresh default
set is empty. -/
def remove_event_handler (st : ConnState) (ev : H2Event) (h : Nat) :
    Except PyError ConnState :=
  match lookupAssoc st.event_handlers ev with
  | some hs =>
    if h ∈ hs then
      Except.ok
        { st with
          event_handlers :=
            st.event_handlers.map fun kv =>
              if kv.1 = ev then (kv.1, kv.2.filter (fun x => x ≠ h)) else kv }
    else Except.error PyError.keyError
  | none => Except.error PyError.keyError

/-- A reachable connected state: fresh connection, `connect()`, then the
transport reports success with a healthy stream (`error = None`). -/
def connectedSample : ConnState :=
  (on_connect (connect (ConnState.init 5))
    { error := .noErr, closed := false, nodelay := false, close_callback := none }).1

/-- A connected state with the given stream registry and an empty command
trace, used to read a decode batch's flow-control commands in isolation. -/
def regSample (reg : List (Nat × Nat)) : ConnState :=
  { connectedSample with ongoing_streams := reg, flow_cmds := [] }

/-- The per-stream increment commands the flow loop is expected to produce:
one per registry entry with a nonzero accumulated count. -/
def streamIncrCmds (rs : List (Nat × Nat)) : List FlowCmd :=
  (rs.filter fun kv => kv.2 ≠ 0).map fun kv => FlowCmd.streamIncr kv.1 kv.2

/-- Sum of the accumulated per-stream counts of one decode batch. -/
def recvTotal (rs : List (Nat × Nat)) : Nat :=
  (rs.map Prod.snd).sum

lemma flowLoop_eq (rs : List (Nat × Nat)) :
    ∀ (st : ConnState) (rc : Nat),
      flowLoop st rc rs =
        ({ st with flow_cmds := st.flow_cmds ++ streamIncrCmds rs },
          rc + recvTotal rs) := by
  induction rs with
  | nil =>
    intro st rc
    simp [flowLoop, streamIncrCmds, recvTotal]
  | cons kv rest ih =>
    intro st rc
    by_cases h : kv.2 = 0
    · simp [flowLoop, h, ih, streamIncrCmds, recvTotal]
    · simp [flowLoop, h, ih, streamIncrCmds, recvTotal, Nat.add_assoc]

lemma flowPhase_cmds (st : ConnState) (acc : PELoop) :
    (flowPhase st acc).flow_cmds =
      st.flow_cmds ++ streamIncrCmds acc.recv_streams ++
        (if recvTotal acc.recv_streams ≠ 0 then
          [FlowCmd.connIncr (recvTotal acc.recv_streams)] else []) ++
        (if recvTotal acc.recv_streams ≠ 0 ∨ acc.settings_updated = true then
          [FlowCmd.flushData] else []) := by
  unfold flowPhase
  rw [flowLoop_eq]
  by_cases h : recvTotal acc.recv_streams = 0 <;>
    by_cases hs : acc.settings_updated = true <;>
      simp [h, hs, flush]

lemma flowPhase_delivered (st : ConnState) (acc : PELoop) :
    (flowPhase st acc).delivered = st.delivered := by
  unfold flowPhase
  rw [flowLoop_eq]
  by_cases h : recvTotal acc.recv_streams = 0 <;>
    by_cases hs : acc.settings_updated = true <;>
      simp [h, hs, flush]

/-- C1. The claim says the closure routine is idempotent, invoking
`on_connection_closed` exactly once per connection lifetime.  Refuted: from a
reachable connected state, a transport error followed by an explicit close
runs `on_close` twice and the callback fires twice, not once. -/
theorem C1_counterexample :
    ¬ ((on_close (on_close connectedSample (Reason.transportError 1))
        Reason.noErr).closed_calls.length = 1) := by
  decide

/-- C1 (amended): the closure routine is not idempotent — every invocation of
`on_close` appends exactly one `on_connection_closed` call with that
invocation's reason, so n invocations produce n callbacks. -/
theorem C1_amended (st : ConnState) (r₁ r₂ : Reason) :
    (on_close st r₁).closed_calls = st.closed_calls ++ [r₁] ∧
      (on_close (on_close st r₁) r₂).closed_calls =
        st.closed_calls ++ [r₁, r₂] := by
  constructor
  · rfl
  · simp [on_close]

/-- C2. The claim says a protocol decode error funnels into the closure
routine, invoking `on_connection_closed` with a protocol-error condition.
Refuted: on a reachable connected state, a decode error in `data_received`
is swallowed by the bare `except` (logged only); the state is unchanged and
no closure callback fires. -/
theorem C2_counterexample :
    data_received connectedSample DecodeResult.decodeError = connectedSample ∧
      (data_received connectedSample DecodeResult.decodeError).closed_calls = [] := by
  constructor
  · rfl
  · decide

/-- C2 (amended): a decode error raised while feeding bytes to the protocol
engine is caught and logged inside `data_received`; the connection state is
completely unchanged — the connection silently continues and
`on_connection_closed` is not invoked. -/
theorem C2_amended (st : ConnState) :
    data_received st DecodeResult.decodeError = st := by
  rfl

/-- C4. The claim says `connect()` is rejected as a no-op when already
Connected.  Refuted: after a successful `on_connect` the timeout slot is
`None`, so a second `connect()` passes the guard, mutates the state and
starts a new connect attempt. -/
theorem C4_counterexample :
    connect connectedSample ≠ connectedSample ∧
      (connect connectedSample).connect_attempts =
        connectedSample.connect_attempts + 1 := by
  constructor
  · decide
  · decide

/-- C4 (amended): a second `connect()` is rejected as a no-op exactly while a
connect attempt is pending, i.e. while the connect-timeout handle is set
(Python-truthy); once connected (handle cleared) the guard no longer holds. -/
theorem C4_amended (st : ConnState) (h : st.connect_timeout_t.truthy = true) :
    connect st = st := by
  unfold connect
  rw [h]
  simp

theorem C4_witness :
    (connect (ConnState.init 5)).connect_timeout_t.truthy = true ∧
      connect (connect (ConnState.init 5)) = connect (ConnState.init 5) :=
  ⟨by decide, C4_amended (connect (ConnState.init 5)) (by decide)⟩

/-- C7. If the connect timer fires before the transport reports success, the
timeout is authoritative: `on_connection_closed` has fired exactly once with
the request-timeout reason `HTTPError(599)`, and the late transport is closed
immediately upon arrival while the connection records no stream and
constructs no protocol engine. -/
theorem C7_timeout_authoritative (tout : Nat) (ios : IOStream) :
    (on_timeout (connect (ConnState.init tout))).closed_calls =
        [Reason.httpError 599] ∧
      (on_timeout (connect (ConnState.init tout))).stream = none ∧
      (on_timeout (connect (ConnState.init tout))).h2conn = false ∧
      on_connect (on_timeout (connect (ConnState.init tout))) ios =
        (on_timeout (connect (ConnState.init tout)),
          { ios with closed := true }) := by
  refine ⟨rfl, rfl, rfl, ?_⟩
  rfl

/-- C8. The claim says `on_connection_closed` receives the transport's error
at the time the transport actually failed.  The code binds the close callback
to `io_stream.error` evaluated at connect time, so when the established
transport later fails with `transportError 7`, the callback receives the
stale captured value (`None`), not the live error. -/
theorem C8_stale_error :
    (transport_closed connectedSample (Reason.transportError 7)).closed_calls =
        [Reason.noErr] ∧
      Reason.noErr ≠ Reason.transportError 7 := by
  constructor
  · decide
  · decide

/-- C9. The claim says `add_event_handler` registers the handler so a
subsequent `remove_event_handler` succeeds.  The code calls
`self.event_handlers.get(event, set()).add(handler)`, mutating a temporary
default set that is immediately discarded: on a fresh connection the
dictionary stays empty, and the subsequent removal raises `KeyError`. -/
theorem C9_add_is_lost :
    add_event_handler (ConnState.init 5) H2Event.connEvent 3 =
        ConnState.init 5 ∧
      remove_event_handler
          (add_event_handler (ConnState.init 5) H2Event.connEvent 3)
          H2Event.connEvent 3 =
        Except.error PyError.keyError := by
  constructor
  · decide
  · rfl

/-- C10. The claim says `end_stream` for an unregistered id is tolerated as a
no-op.  Refuted: `del self._ongoing_streams[stream.stream_id]` raises
`KeyError` on a fresh connection whose registry does not contain id 1. -/
theorem C10_counterexample :
    end_stream (ConnState.init 5) 1 = Except.error PyError.keyError := by
  rfl

/-- C10 (amended): `end_stream` for a stream id not present in the registry
raises `KeyError` — the removal is not tolerated as a no-op (the registry
mapping itself is left unmodified, since the deletion fails). -/
theorem C10_amended (st : ConnState) (sid : Nat)
    (h : sid ∉ st.ongoing_streams.map Prod.fst) :
    end_stream st sid = Except.error PyError.keyError := by
  unfold end_stream
  simp [h]

/-- C3. The claim says a batch containing a connection-termination event is
fully dispatched and then the connection's final closure is performed, ending
in Closed.  The batch is indeed fully dispatched first, but the
`connection_terminated` flag computed by the loop is never consulted: the code
performs no closure at all — the connection stays Connected and
`on_connection_closed` never fires. -/
theorem C3_no_final_closure :
    (process_events { connectedSample with ongoing_streams := [(1, 0)] }
        [H2Event.streamEvent 1, H2Event.connectionTerminated]).delivered =
        [(1, H2Event.streamEvent 1)] ∧
      (process_events { connectedSample with ongoing_streams := [(1, 0)] }
        [H2Event.streamEvent 1, H2Event.connectionTerminated]).is_connected =
        true ∧
      (process_events { connectedSample with ongoing_streams := [(1, 0)] }
        [H2Event.streamEvent 1, H2Event.connectionTerminated]).closed_calls =
        [] := by
  refine ⟨by decide, by decide, by decide⟩

/-- C5. The claim says every decode batch issues exactly one connection-scope
credit increment whose amount is the sum of the per-stream counts, followed
by a flush.  Refuted on a batch whose only data-delivery event carries zero
bytes: the sum is zero, and the code issues no connection-scope increment and
no flush at all. -/
theorem C5_counterexample :
    (process_events (regSample [(1, 0)]) [H2Event.dataReceived 1 0]).flow_cmds =
      [] := by
  decide

/-- C5 (amended): over one decode batch the aggregator issues one per-stream
increment per stream with a nonzero accumulated count, then one
connection-scope increment of the total — but only when the total is nonzero
— and flushes exactly when the total is nonzero or a settings update was
received; on the batch with byte counts 10, 0, 25 over registered streams
1, 3, 5 this yields exactly two per-stream increments, one connection-scope
increment of 35 and a flush, in that order. -/
theorem C5_amended :
    (∀ (st : ConnState) (acc : PELoop),
      (flowPhase st acc).flow_cmds =
        st.flow_cmds ++ streamIncrCmds acc.recv_streams ++
          (if recvTotal acc.recv_streams ≠ 0 then
            [FlowCmd.connIncr (recvTotal acc.recv_streams)] else []) ++
          (if recvTotal acc.recv_streams ≠ 0 ∨ acc.settings_updated = true then
            [FlowCmd.flushData] else [])) ∧
      (process_events (regSample [(1, 0), (3, 0), (5, 0)])
          [H2Event.dataReceived 1 10, H2Event.dataReceived 3 0,
            H2Event.dataReceived 5 25]).flow_cmds =
        [FlowCmd.streamIncr 1 10, FlowCmd.streamIncr 5 25,
          FlowCmd.connIncr 35, FlowCmd.flushData] := by
  refine ⟨fun st acc => flowPhase_cmds st acc, by decide⟩

/-- C6. The claim says an event whose stream id is unregistered contributes
nothing to the flow-control ledger.  Refuted: a data-delivery event on
unregistered stream 7 is delivered to no handler, yet its 10 bytes are
accumulated and credited back (per-stream and connection-scope). -/
theorem C6_counterexample :
    (process_events (regSample []) [H2Event.dataReceived 7 10]).delivered =
        [] ∧
      (process_events (regSample []) [H2Event.dataReceived 7 10]).flow_cmds =
        [FlowCmd.streamIncr 7 10, FlowCmd.connIncr 10, FlowCmd.flushData] := by
  refine ⟨by decide, by decide⟩

/-- C6 (amended): received bytes of a data-delivery event are accumulated
into the flow-control ledger keyed by its stream id regardless of whether the
stream is registered; an event on an unregistered (nonzero) stream id is
delivered to no handler, but its byte count still produces the per-stream and
connection-scope credit increments (and the flush) when nonzero. -/
theorem C6_amended (st : ConnState) (sid n : Nat) (h0 : sid ≠ 0)
    (h : sid ∉ st.ongoing_streams.map Prod.fst) :
    (process_events st [H2Event.dataReceived sid n]).delivered =
        st.delivered ∧
      (process_events st [H2Event.dataReceived sid n]).flow_cmds =
        st.flow_cmds ++
          (if n ≠ 0 then
            [FlowCmd.streamIncr sid n, FlowCmd.connIncr n, FlowCmd.flushData]
          else []) := by
  have hcond : ¬ (sid ≠ 0 ∧ sid ∈ st.ongoing_streams.map Prod.fst) := by
    intro hc
    exact h hc.2
  have hstep : eventsLoop st ⟨[], false, false⟩ [H2Event.dataReceived sid n] =
      ((match lookupAssoc st.event_handlers (H2Event.dataReceived sid n) with
        | some hs =>
          { st with
            handler_calls :=
              st.handler_calls ++
                hs.map (fun hh => (hh, H2Event.dataReceived sid n)) }
        | none => st),
        ⟨[(sid, n)], false, false⟩) := by
    cases hl : lookupAssoc st.event_handlers (H2Event.dataReceived sid n) <;>
      simp [eventsLoop, processOne, H2Event.streamId?, hl, if_neg hcond,
        bumpRecv]
  simp only [process_events]
  rw [hstep]
  cases hl : lookupAssoc st.event_handlers (H2Event.dataReceived sid n) <;>
    · simp only [hl, flowPhase_delivered, flowPhase_cmds]
      by_cases hn : n = 0 <;>
        simp [hn, streamIncrCmds, recvTotal]

theorem C6_witness :
    ((7 : Nat) ≠ 0 ∧
        (7 : Nat) ∉ (regSample []).ongoing_streams.map Prod.fst) ∧
      ((process_events (regSample []) [H2Event.dataReceived 7 10]).delivered =
          (regSample []).delivered ∧
        (process_events (regSample []) [H2Event.dataReceived 7 10]).flow_cmds =
          (regSample []).flow_cmds ++
            (if (10 : Nat) ≠ 0 then
              [FlowCmd.streamIncr 7 10, FlowCmd.connIncr 10,
                FlowCmd.flushData]
            else [])) :=
  ⟨⟨by decide, by decide⟩,
    C6_amended (regSample []) 7 10 (by decide) (by decide)⟩

theorem C10_witness :
    (1 : Nat) ∉ (ConnState.init 5).ongoing_streams.map Prod.fst ∧
      end_stream (ConnState.init 5) 1 = Except.error PyError.keyError :=
  ⟨by decide, C10_amended (ConnState.init 5) 1 (by decide)⟩

end Th2c
